import Mathlib

/-!
Shallow embedding of `mlflow/pyfunc/__init__.py` (flavor configuration,
dynamic loader, version check, exporter, standalone loader code generator,
and the Spark-UDF batched prediction type-coercion engine), together with
theorems settling the specification claims about it.
-/

set_option maxRecDepth 4000

/-- decidable equality for `Except`, used to evaluate the fallible
operations on concrete inputs. -/
instance {ε α : Type} [DecidableEq ε] [DecidableEq α] : DecidableEq (Except ε α) := fun x y =>
  match x, y with
  | Except.ok a, Except.ok b =>
      if h : a = b then isTrue (by rw [h]) else isFalse (by simp [h])
  | Except.error a, Except.error b =>
      if h : a = b then isTrue (by rw [h]) else isFalse (by simp [h])
  | Except.ok _, Except.error _ => isFalse (by simp)
  | Except.error _, Except.ok _ => isFalse (by simp)

/-- numpy dtypes as they occur in `spark_udf.predict`'s `select_dtypes`
calls.  On the 64-bit platforms the source targets, `np.int` and `np.long`
both denote the signed 64-bit integer dtype, so the embedding has a single
`int64` constructor for them. -/
inductive NpDtype
  | byte | ubyte | short | ushort | int32 | uint32 | int64 | uint64
  | float32 | float64 | object
deriving DecidableEq, Repr

/-- a scalar cell of a prediction column.  Float payloads are carried as
rationals; rounding behaviour of float casts is not modelled (no settled
claim depends on float value arithmetic, only on which columns are kept
and how integer values are cast). -/
inductive Val
  | int (i : Int)
  | float (q : Rat)
  | str (s : String)
deriving DecidableEq, Repr

/-- one column of a pandas DataFrame: its label, dtype and cell values. -/
structure Column where
  name : String
  dtype : NpDtype
  values : List Val
deriving DecidableEq, Repr

instance : Inhabited Column := ⟨⟨"", NpDtype.object, []⟩⟩

/-- a pandas DataFrame, as the ordered list of its columns. -/
abbrev DataFrame := List Column

/-- the dtype list of `result.select_dtypes([np.byte, np.ubyte, np.short,
np.ushort, np.int32])` in the `IntegerType` branch. -/
def intSelectDtypes : List NpDtype :=
  [NpDtype.byte, NpDtype.ubyte, NpDtype.short, NpDtype.ushort, NpDtype.int32]

/-- the dtype list of `result.select_dtypes([np.byte, np.ubyte, np.short,
np.ushort, np.int, np.long])` in the `LongType` branch (`np.int` and
`np.long` both being int64 here). -/
def longSelectDtypes : List NpDtype :=
  [NpDtype.byte, NpDtype.ubyte, NpDtype.short, NpDtype.ushort, NpDtype.int64, NpDtype.int64]

/-- whether a dtype is selected by `select_dtypes(include=np.number)`. -/
def NpDtype.isNumber : NpDtype → Bool
  | NpDtype.object => false
  | _ => true

/-- `df.select_dtypes(ds)`: keep, in order, the columns whose dtype is in
the list. -/
def select_dtypes (ds : List NpDtype) (df : DataFrame) : DataFrame :=
  df.filter (fun c => ds.contains c.dtype)

/-- two's-complement wrap of an integer into the signed 32-bit range, as
numpy's `astype(np.int32)` performs on integer inputs. -/
def wrapInt32 (i : Int) : Int :=
  let m := i % (2 ^ 32 : Int)
  if m < 2 ^ 31 then m else m - 2 ^ 32

/-- `column.astype(np.int32)`.  In the source this is only ever applied to
columns of integer dtype (right after an integer `select_dtypes`), so only
integer payloads are converted; other payloads are unreachable there and
are left unchanged. -/
def Column.astypeInt32 (c : Column) : Column :=
  { c with dtype := NpDtype.int32,
           values := c.values.map (fun v => match v with
             | Val.int i => Val.int (wrapInt32 i)
             | v => v) }

/-- `column.astype(np.float32)` / `astype(np.float64)`: the dtype changes
and integer payloads become float payloads; float-to-float rounding is not
modelled (the payload is kept), as no settled claim depends on it. -/
def Column.astypeFloat (target : NpDtype) (c : Column) : Column :=
  { c with dtype := target,
           values := c.values.map (fun v => match v with
             | Val.int i => Val.float i
             | v => v) }

/-- Python's `str()` rendering of a cell, as used by `applymap(str)`.  The
exact rendering of numbers is a modelling choice; no settled claim depends
on it. -/
def pyStr : Val → String
  | Val.int i => toString i
  | Val.float q => toString q
  | Val.str s => s

/-- `column.applymap(str)` restricted to one column: stringify every cell. -/
def Column.stringify (c : Column) : Column :=
  { c with dtype := NpDtype.object,
           values := c.values.map (fun v => Val.str (pyStr v)) }

/-- the element types `spark_udf` supports (`supported_types` in the
source). -/
inductive ElemType
  | integerType | longType | floatType | doubleType | stringType
deriving DecidableEq, Repr

/-- the requested Spark result type: a primitive type or an array of one. -/
inductive SparkResultType
  | scalar (t : ElemType)
  | array (t : ElemType)
deriving DecidableEq, Repr

/-- `elem_type` in the source: the element type of the requested result
type (the type itself when it is not an `ArrayType`). -/
def SparkResultType.elemType : SparkResultType → ElemType
  | SparkResultType.scalar t => t
  | SparkResultType.array t => t

/-- a raw value returned by `model.predict(pdf)`: either already a pandas
DataFrame, or a one-dimensional result together with the element dtype
pandas infers when `pandas.DataFrame(data=result)` wraps it into one
column. -/
inductive RawResult
  | table (d : DataFrame)
  | vector (dtype : NpDtype) (values : List Val)
deriving DecidableEq, Repr

/-- the `IntegerType` branch of `spark_udf.predict`:
`result.select_dtypes([np.byte, np.ubyte, np.short, np.ushort,
np.int32]).astype(np.int32)`. -/
def integerTypeCoerce (df : DataFrame) : DataFrame :=
  (select_dtypes intSelectDtypes df).map Column.astypeInt32

/-- the `LongType` branch: `result.select_dtypes([np.byte, np.ubyte,
np.short, np.ushort, np.int, np.long])`. -/
def longTypeCoerce (df : DataFrame) : DataFrame :=
  select_dtypes longSelectDtypes df

/-- the `FloatType` branch:
`result.select_dtypes(include=np.number).astype(np.float32)`. -/
def floatTypeCoerce (df : DataFrame) : DataFrame :=
  (df.filter (fun c => c.dtype.isNumber)).map (Column.astypeFloat NpDtype.float32)

/-- the `DoubleType` branch:
`result.select_dtypes(include=np.number).astype(np.float64)`. -/
def doubleTypeCoerce (df : DataFrame) : DataFrame :=
  (df.filter (fun c => c.dtype.isNumber)).map (Column.astypeFloat NpDtype.float64)

/-- the value of `result` in `spark_udf.predict` just before the
`len(result.columns) == 0` check: the source's
`if not isinstance(result, pandas.DataFrame): result = DataFrame(data=result)
elif IntegerType: ... elif LongType: ... elif FloatType: ... elif DoubleType: ...`
chain.  Because the branches are `elif`s of the wrapping test, a raw
result that was not a DataFrame is wrapped and then reaches the check
without any dtype filtering. -/
def filteredResult (elem : ElemType) (raw : RawResult) : DataFrame :=
  match raw with
  | RawResult.vector dt vs => [⟨"0", dt, vs⟩]
  | RawResult.table d =>
      if elem = ElemType.integerType then integerTypeCoerce d
      else if elem = ElemType.longType then longTypeCoerce d
      else if elem = ElemType.floatType then floatTypeCoerce d
      else if elem = ElemType.doubleType then doubleTypeCoerce d
      else d

/-- number of rows of a DataFrame (all columns of a pandas DataFrame have
the same length; the embedding reads it off the first column). -/
def nRows (df : DataFrame) : Nat :=
  match df with
  | [] => 0
  | c :: _ => c.values.length

/-- `[row[1].values for row in result.iterrows()]`: for each row index,
the list of that row's cell values across the columns in column order. -/
def dfRows (df : DataFrame) : List (List Val) :=
  (List.range (nRows df)).map (fun i => df.map (fun c => c.values.getD i (Val.str "")))

/-- errors raised inside `spark_udf.predict`. -/
inductive PredictError
  | unsupportedResult (elem : ElemType)
deriving DecidableEq, Repr

/-- the value an invocation of the UDF hands back to Spark: a single
column's values, or per-row value arrays. -/
inductive UdfOutput
  | column (values : List Val)
  | rows (rs : List (List Val))
deriving DecidableEq, Repr

/-- the part of `spark_udf.predict` that follows `model.predict(pdf)`:
the wrap-or-filter `elif` chain, the empty-result check, `applymap(str)`
for string requests, and the final scalar-column / row-array shaping. -/
def coerceResult (rt : SparkResultType) (raw : RawResult) : Except PredictError UdfOutput :=
  let result := filteredResult rt.elemType raw
  if result.length = 0 then
    Except.error (PredictError.unsupportedResult rt.elemType)
  else
    let result2 := if rt.elemType = ElemType.stringType then result.map Column.stringify else result
    match rt with
    | SparkResultType.array _ => Except.ok (UdfOutput.rows (dfRows result2))
    | SparkResultType.scalar _ => Except.ok (UdfOutput.column (result2.headD default).values)

/-- one positional argument of the UDF: a pandas Series (its dtype and
values). -/
structure PdSeries where
  dtype : NpDtype
  values : List Val
deriving DecidableEq, Repr

/-- `columns = [str(i) for i, _ in enumerate(args)]`: the explicit column
order passed to the DataFrame constructor. -/
def inputColumns (n : Nat) : List String :=
  (List.range n).map (fun i => toString i)

/-- `pandas.DataFrame(schema, columns=columns)` in `spark_udf.predict`:
the input batch whose i-th column is the i-th positional argument under
the ordinal key `str(i)`. -/
def assembleInput (args : List PdSeries) : DataFrame :=
  args.enum.map (fun p => ⟨toString p.1, p.2.dtype, p.2.values⟩)

/-- claim-side predicate, taken from the specification's words for the
integer-32 policy (kept for comparison with the source's dtype-based
selection): every cell of the column is an integer exactly representable
as a signed 8-, 16- or 32-bit integer, i.e. lies in the signed 32-bit
range. -/
def specInt32Representable (c : Column) : Bool :=
  c.values.all (fun v => match v with
    | Val.int i => decide (-(2 ^ 31) ≤ i ∧ i < 2 ^ 31)
    | _ => false)

/-- Python truthiness of an optional string value (`None` and `""` are
falsy, every other string is truthy), as tested by `if code:` and
`if CODE in conf and conf[CODE]:` in the source. -/
def truthy : Option String → Bool
  | none => false
  | some s => s ≠ ""

/-- `os.path.join(a, b)` for the relative second components the source
passes: the first component, a separator, the second component. -/
def joinPath (a b : String) : String := a ++ "/" ++ b

/-- the relevant view of the operating system for the loader: `os.listdir`
and `os.path.isdir`.  `isdir` is a predicate on path strings as the OS
resolves them, so a bare name (no leading separator) is resolved against
the process's current working directory. -/
structure Fs where
  listdir : String → List String
  isdir : String → Bool

/-- `_get_code_dirs(src_code_path, dst_code_path)` from the source:
`if not dst_code_path: dst_code_path = src_code_path` followed by
`[os.path.join(dst_code_path, x) for x in os.listdir(src_code_path)
if os.path.isdir(x) and not x == "__pycache__"]`.  Note the source passes
the bare entry name `x` to `os.path.isdir`, not a path under
`src_code_path`. -/
def _get_code_dirs (fs : Fs) (src_code_path : String)
    (dst_code_path : Option String := none) : List String :=
  let dst := if truthy dst_code_path then dst_code_path.getD src_code_path else src_code_path
  ((fs.listdir src_code_path).filter
      (fun x => fs.isdir x && x ≠ "__pycache__")).map (fun x => joinPath dst x)

/-- the `python_function` flavor configuration: `loader_module` plus the
optional `code`, `data`, `env` and `python_version` entries.  An entry
that is present in the stored mapping but bound to an empty string is
`some ""`; an absent entry is `none`. -/
structure FlavorConf where
  loader_module : String
  python_version : Option String := none
  code : Option String := none
  data : Option String := none
  env : Option String := none
deriving DecidableEq, Repr

/-- the well-known loader entry point name invoked by both the dynamic
loader and the generated standalone loader:
`importlib.import_module(conf[MAIN])._load_pyfunc(...)`. -/
def pyfuncEntryPoint : String := "_load_pyfunc"

/-- the outcome of `load_pyfunc`'s path wiring: the search path after the
optional code injection, and the delegated loader call it performs (the
module named by `loader_module`, the fixed entry point, and the data
argument). -/
structure LoadCall where
  sysPath : List String
  loader_module : String
  entryPoint : String
  dataPath : String
deriving DecidableEq, Repr

/-- `load_pyfunc(path)` after the flavor configuration has been read (the
version-warning side effect is modelled separately by
`_warn_potentially_incompatible_py_version_if_necessary`):
`if CODE in conf and conf[CODE]: sys.path = [code_path] +
_get_code_dirs(code_path) + sys.path`, then
`data_path = os.path.join(path, conf[DATA]) if (DATA in conf) else path`,
then `importlib.import_module(conf[MAIN])._load_pyfunc(data_path)`. -/
def load_pyfunc (fs : Fs) (sysPath : List String) (path : String)
    (conf : FlavorConf) : LoadCall :=
  let sysPath2 :=
    if truthy conf.code then
      let code_path := joinPath path (conf.code.getD "")
      code_path :: (_get_code_dirs fs code_path ++ sysPath)
    else sysPath
  let data_path :=
    match conf.data with
    | some d => joinPath path d
    | none => path
  ⟨sysPath2, conf.loader_module, pyfuncEntryPoint, data_path⟩

/-- splitting of a character list at a separator character (the executable
core of `str.split(sep)` for one-character separators). -/
def splitSepAux (sep : Char) : List Char → List Char → List String
  | [], acc => [String.mk acc.reverse]
  | c :: rest, acc =>
      if c = sep then String.mk acc.reverse :: splitSepAux sep rest []
      else splitSepAux sep rest (c :: acc)

/-- `s.split(sep)` for a one-character separator. -/
def splitSep (sep : Char) (s : String) : List String :=
  splitSepAux sep s.data []

/-- Modelled from the spec: `get_major_minor_py_version` lives in
`mlflow.utils`, which is not under `src/`; the spec says the check
"compares major.minor components only (patch differences are ignored)",
so the model keeps the first two dot-separated components. -/
def get_major_minor_py_version (v : String) : String :=
  String.intercalate "." ((splitSep '.' v).take 2)

/-- the warnings the version compatibility check can log. -/
inductive PyWarning
  | unknownVersion (current : String)
  | versionMismatch (model_version current : String)
deriving DecidableEq, Repr

/-- `_warn_potentially_incompatible_py_version_if_necessary` from the
source, with the running interpreter's `PYTHON_VERSION` passed explicitly:
it returns the list of warnings logged (it raises nothing and returns
nothing else). -/
def _warn_potentially_incompatible_py_version_if_necessary
    (model_py_version : Option String) (python_version : String) : List PyWarning :=
  match model_py_version with
  | none => [PyWarning.unknownVersion python_version]
  | some v =>
      if get_major_minor_py_version v ≠ get_major_minor_py_version python_version then
        [PyWarning.versionMismatch v python_version]
      else []

/-- the model description document holding named flavor sections
(`mlflow.models.Model` is an external collaborator; only its flavor map is
relevant here). -/
structure MLmodel where
  flavors : List (String × FlavorConf)
deriving DecidableEq, Repr

/-- the fixed flavor name `FLAVOR_NAME = "python_function"`. -/
def FLAVOR_NAME : String := "python_function"

/-- `add_to_model(model, loader_module, data, code, env)`: builds the
pyfunc flavor entry with `loader_module` and the producer's version, adds
the `code` / `data` / `env` keys only when the corresponding argument is
truthy (`if code: parms[CODE] = code` and likewise), and appends the
flavor under `FLAVOR_NAME`.  The running producer's `PYTHON_VERSION` is
passed explicitly. -/
def add_to_model (model : MLmodel) (loader_module : String) (python_version : String)
    (data code env : Option String) : MLmodel :=
  ⟨model.flavors ++ [(FLAVOR_NAME,
    { loader_module := loader_module,
      python_version := some python_version,
      code := if truthy code then code else none,
      data := if truthy data then data else none,
      env := if truthy env then env else none })]⟩

/-- one filesystem object created by the exporter. -/
inductive FsEntry
  | dirEntry
  | blob (content : String)
  | modelDoc (m : MLmodel)
deriving DecidableEq, Repr

/-- the filesystem as the exporter sees it: an association list from path
to entry, in creation order. -/
abbrev FsState := List (String × FsEntry)

/-- `os.path.exists(p)`. -/
def pathExists (fs : FsState) (p : String) : Bool :=
  (fs.lookup p).isSome

/-- `os.makedirs(p)`: records the new directory. -/
def makedirs (fs : FsState) (p : String) : FsState :=
  fs ++ [(p, FsEntry.dirEntry)]

/-- the last path component, as `os.path.basename` returns it for the
paths the exporter passes. -/
def basename (p : String) : String :=
  (splitSep '/' p).getLastD p

/-- Modelled from the spec: `_copy_file_or_tree(src, dst, dst_dir)` lives
in `mlflow.utils.file_utils`, which is not under `src/`; per the spec it
copies the file or directory into `dst/dst_dir` and returns the relative
path of the copy inside `dst`. -/
def _copy_file_or_tree (fs : FsState) (src dst dst_dir : String) : FsState × String :=
  let rel := joinPath dst_dir (basename src)
  (fs ++ [(joinPath dst rel,
            FsEntry.blob (match fs.lookup src with
                          | some (FsEntry.blob s) => s
                          | _ => ""))], rel)

/-- `shutil.copy(src, dst)`. -/
def copyFile (fs : FsState) (src dst : String) : FsState :=
  fs ++ [(dst, FsEntry.blob (match fs.lookup src with
                             | some (FsEntry.blob s) => s
                             | _ => ""))]

/-- errors raised by `save_model`. -/
inductive SaveError
  | destinationExists (dst : String)
deriving DecidableEq, Repr

/-- `save_model(dst_path, loader_module, data_path, code_path, conda_env,
model)` from the source, with the filesystem threaded explicitly and the
producer's `PYTHON_VERSION` passed in: it first raises if `dst_path`
already exists, otherwise creates the destination, copies data / code /
environment as supplied, extends the model with the pyfunc flavor via
`add_to_model` and persists the document as `dst_path/MLmodel`.  The
returned state is the filesystem at return (or raise) time. -/
def save_model (fs : FsState) (dst_path loader_module : String)
    (data_path : Option String) (code_path : List String) (conda_env : Option String)
    (model : MLmodel) (python_version : String) : FsState × Except SaveError MLmodel :=
  if pathExists fs dst_path then
    (fs, Except.error (SaveError.destinationExists dst_path))
  else
    let fs1 := makedirs fs dst_path
    let step2 :=
      if truthy data_path then
        let r := _copy_file_or_tree fs1 (data_path.getD "") dst_path "data"
        (r.1, some r.2)
      else (fs1, (none : Option String))
    let fs3 := code_path.foldl (fun s p => (_copy_file_or_tree s p dst_path "code").1) step2.1
    let code := if code_path ≠ [] then some "code" else (none : Option String)
    let step4 :=
      if truthy conda_env then
        (copyFile fs3 (conda_env.getD "") (joinPath dst_path "mlflow_env.yml"),
         some "mlflow_env.yml")
      else (fs3, (none : Option String))
    let model2 := add_to_model model loader_module python_version step2.2 code step4.2
    let fs5 := step4.1 ++ [(joinPath dst_path "MLmodel", FsEntry.modelDoc model2)]
    (fs5, Except.ok model2)

/-- errors raised by `get_module_loader_src`. -/
inductive GenError
  | formatNotFound (flavor conf_path : String)
deriving DecidableEq, Repr

/-- the triple-quoted `loader_template` of the source with its three
`format` slots substituted: the import preamble, then
`def load_pyfunc():` whose body is the optional search-path update
followed by
`return importlib.import_module('<main>')._load_pyfunc('<data_path>')`. -/
def loader_template (update_path main data_path : String) : String :=
  "\n\nimport importlib\nimport os\nimport sys\n\ndef load_pyfunc():\n    "
    ++ update_path
    ++ "return importlib.import_module(\x27" ++ main ++ "\x27)." ++ pyfuncEntryPoint
    ++ "(\x27" ++ data_path ++ "\x27)\n\n"

/-- the `"os.path.abspath('%s')" % x` wrapper used for each emitted
search-path element. -/
def abspathSrc (x : String) : String :=
  "os.path.abspath(\x27" ++ x ++ "\x27)"

/-- `get_module_loader_src(src_path, dst_path)` from the source, with the
already-parsed model document and the filesystem passed explicitly
(`Model.load` is an external collaborator): it fails when the
`python_function` flavor is absent; otherwise, when the configuration's
`code` entry is truthy it builds
`sys.path = [os.path.abspath('<dst_code>'), ...] + sys.path; ` from
`[dst_code_path] + _get_code_dirs(src_code_path, dst_code_path)`, roots
the data path at `dst_path` (or uses `dst_path` itself when `data` is
absent) and renders `loader_template`. -/
def get_module_loader_src (fs : Fs) (model : MLmodel) (src_path dst_path : String) :
    Except GenError String :=
  match model.flavors.lookup FLAVOR_NAME with
  | none => Except.error (GenError.formatNotFound FLAVOR_NAME (joinPath src_path "MLmodel"))
  | some conf =>
      let update_path :=
        if truthy conf.code then
          let src_code_path := joinPath src_path (conf.code.getD "")
          let dst_code_path := joinPath dst_path (conf.code.getD "")
          let code_path :=
            ([dst_code_path] ++ _get_code_dirs fs src_code_path (some dst_code_path)).map
              abspathSrc
          "sys.path = [" ++ String.intercalate "," code_path ++ "] + sys.path; "
        else ""
      let data_path :=
        match conf.data with
        | some d => joinPath dst_path d
        | none => dst_path
      Except.ok (loader_template update_path conf.loader_module data_path)

/-- the signed range of an integer dtype, and which cell payloads are
legal for it: used to state that a column's values are consistent with its
declared dtype. -/
def Column.wellTyped (c : Column) : Bool :=
  match c.dtype with
  | NpDtype.byte => c.values.all (fun v => match v with
      | Val.int i => decide (-(2 ^ 7) ≤ i ∧ i < 2 ^ 7)
      | _ => false)
  | NpDtype.ubyte => c.values.all (fun v => match v with
      | Val.int i => decide (0 ≤ i ∧ i < 2 ^ 8)
      | _ => false)
  | NpDtype.short => c.values.all (fun v => match v with
      | Val.int i => decide (-(2 ^ 15) ≤ i ∧ i < 2 ^ 15)
      | _ => false)
  | NpDtype.ushort => c.values.all (fun v => match v with
      | Val.int i => decide (0 ≤ i ∧ i < 2 ^ 16)
      | _ => false)
  | NpDtype.int32 => c.values.all (fun v => match v with
      | Val.int i => decide (-(2 ^ 31) ≤ i ∧ i < 2 ^ 31)
      | _ => false)
  | NpDtype.uint32 => c.values.all (fun v => match v with
      | Val.int i => decide (0 ≤ i ∧ i < 2 ^ 32)
      | _ => false)
  | NpDtype.int64 => c.values.all (fun v => match v with
      | Val.int i => decide (-(2 ^ 63) ≤ i ∧ i < 2 ^ 63)
      | _ => false)
  | NpDtype.uint64 => c.values.all (fun v => match v with
      | Val.int i => decide (0 ≤ i ∧ i < 2 ^ 64)
      | _ => false)
  | NpDtype.float32 => c.values.all (fun v => match v with
      | Val.float _ => true
      | _ => false)
  | NpDtype.float64 => c.values.all (fun v => match v with
      | Val.float _ => true
      | _ => false)
  | NpDtype.object => true

/-- which columns the filter branch for a given requested element type
keeps (the dtype test of the corresponding `select_dtypes` call; every
column for string requests). -/
def keepsColumn (t : ElemType) (c : Column) : Bool :=
  match t with
  | ElemType.integerType => intSelectDtypes.contains c.dtype
  | ElemType.longType => longSelectDtypes.contains c.dtype
  | ElemType.floatType => c.dtype.isNumber
  | ElemType.doubleType => c.dtype.isNumber
  | ElemType.stringType => true

/-- the cast the filter branch for a given requested element type applies
to each kept column. -/
def castColumn (t : ElemType) (c : Column) : Column :=
  match t with
  | ElemType.integerType => c.astypeInt32
  | ElemType.longType => c
  | ElemType.floatType => c.astypeFloat NpDtype.float32
  | ElemType.doubleType => c.astypeFloat NpDtype.float64
  | ElemType.stringType => c

/-- the head of a filtered list is the first element of the original list
satisfying the predicate: "leftmost survivor" is leftmost in original
order. -/
theorem head_filter_eq_find (p : α → Bool) (l : List α) :
    (l.filter p).head? = l.find? p := by
  induction l with
  | nil => rfl
  | cons a l ih =>
      by_cases h : p a = true
      · simp [List.filter_cons, List.find?_cons, h]
      · simp only [Bool.not_eq_true] at h
        simp [List.filter_cons, List.find?_cons, h, ih]

/-- a find with an always-true predicate returns the head. -/
theorem find_true_eq_head (l : List α) :
    l.find? (fun _ => true) = l.head? := by
  cases l <;> simp [List.find?_cons]

/-- a joined path is never the empty string. -/
theorem joinPath_ne_empty (a b : String) : joinPath a b ≠ "" := by
  intro h
  have h2 : (joinPath a b).length = 0 := by rw [h]; rfl
  have h3 : ("/" : String).length = 1 := rfl
  rw [joinPath, String.length_append, String.length_append, h3] at h2
  omega

/-- Python truthiness of a nonempty string option. -/
theorem truthy_some_of_ne (s : String) (h : s ≠ "") : truthy (some s) = true := by
  simp [truthy, h]

/-- `astype(np.int32)` is the identity on integers already inside the
signed 32-bit range. -/
theorem wrapInt32_eq_self (i : Int) (h1 : -(2 ^ 31) ≤ i) (h2 : i < 2 ^ 31) :
    wrapInt32 i = i := by
  have e32 : (2 : Int) ^ 32 = 4294967296 := by norm_num
  have e31 : (2 : Int) ^ 31 = 2147483648 := by norm_num
  rw [e31] at h1 h2
  simp only [wrapInt32, e32, e31]
  split <;> omega

/-- value lists bounded inside a subrange of the signed 32-bit range are
fixed by the `astype(np.int32)` value map and are int32-representable. -/
theorem int32CastFix (vs : List Val) (lo hi : Int)
    (hlo : -(2 ^ 31) ≤ lo) (hhi : hi ≤ 2 ^ 31)
    (h : vs.all (fun v => match v with
          | Val.int i => decide (lo ≤ i ∧ i < hi)
          | _ => false) = true) :
    vs.map (fun v => match v with
        | Val.int i => Val.int (wrapInt32 i)
        | v => v) = vs
    ∧ vs.all (fun v => match v with
        | Val.int i => decide (-(2 ^ 31) ≤ i ∧ i < 2 ^ 31)
        | _ => false) = true := by
  induction vs with
  | nil => simp
  | cons v vs ih =>
      rw [List.all_cons, Bool.and_eq_true] at h
      obtain ⟨h1, h2⟩ := h
      obtain ⟨ihm, iha⟩ := ih h2
      cases v with
      | int i =>
          rw [decide_eq_true_iff] at h1
          have hfix : wrapInt32 i = i := wrapInt32_eq_self i (by omega) (by omega)
          refine ⟨?_, ?_⟩
          · simp only [List.map_cons, ihm, hfix]
          · rw [List.all_cons, Bool.and_eq_true]
            exact ⟨by rw [decide_eq_true_iff]; omega, iha⟩
      | float q => simp at h1
      | str s => simp at h1

/-- a well-typed column of one of the dtypes selected by the integer-32
branch is cast to int32 with its values untouched, and all its values are
exactly representable as signed 32-bit integers. -/
theorem astypeInt32_of_small (c : Column)
    (hw : c.wellTyped = true) (hd : intSelectDtypes.contains c.dtype = true) :
    c.astypeInt32 = { c with dtype := NpDtype.int32 }
    ∧ specInt32Representable c = true := by
  obtain ⟨nm, dty, vs⟩ := c
  rw [Column.wellTyped] at hw
  rw [List.contains, List.elem_iff] at hd
  simp only [intSelectDtypes, List.mem_cons, List.not_mem_nil, or_false] at hd
  simp only [Column.astypeInt32, Column.mk.injEq, specInt32Representable, true_and]
  rcases hd with h | h | h | h | h <;> subst h <;> simp only at hw
  · have := int32CastFix vs (-(2 ^ 7)) (2 ^ 7) (by norm_num) (by norm_num) hw
    exact ⟨this.1, this.2⟩
  · have := int32CastFix vs 0 (2 ^ 8) (by norm_num) (by norm_num) hw
    exact ⟨this.1, this.2⟩
  · have := int32CastFix vs (-(2 ^ 15)) (2 ^ 15) (by norm_num) (by norm_num) hw
    exact ⟨this.1, this.2⟩
  · have := int32CastFix vs 0 (2 ^ 16) (by norm_num) (by norm_num) hw
    exact ⟨this.1, this.2⟩
  · have := int32CastFix vs (-(2 ^ 31)) (2 ^ 31) (by norm_num) (by norm_num) hw
    exact ⟨this.1, this.2⟩

/-- Claim C1 counterexample: an int64-typed column whose values (1 and 2)
all fit in int32 is claimed to be kept and cast to int32, but the source
selects integer columns by dtype (`select_dtypes`), so with only an
int64 column and a float column the integer-32 request keeps nothing and
raises UnsupportedResultError instead of returning the int32-cast column. -/
theorem C1_counterexample :
    specInt32Representable ⟨"c0", NpDtype.int64, [Val.int 1, Val.int 2]⟩ = true
    ∧ coerceResult (SparkResultType.scalar ElemType.integerType)
        (RawResult.table [⟨"c0", NpDtype.int64, [Val.int 1, Val.int 2]⟩,
                          ⟨"c1", NpDtype.float64, [Val.float 1, Val.float 2]⟩])
        = Except.error (PredictError.unsupportedResult ElemType.integerType) := by
  exact ⟨by decide, by decide⟩

/-- Claim C1 (amended): for a tabular prediction result whose columns are
well typed, the integer-32 policy keeps exactly the columns whose dtype is
one of byte, ubyte, short, ushort, int32 — the dtypes whose entire range
fits in int32 — in original order, casting each to int32 with its values
unchanged; every kept column's values are exactly representable as signed
32-bit integers, but an int64-typed column is excluded regardless of its
values. -/
theorem C1_integer32_dtype_policy (df : DataFrame)
    (h : ∀ c ∈ df, c.wellTyped = true) :
    integerTypeCoerce df
        = (df.filter (fun c => intSelectDtypes.contains c.dtype)).map
            (fun c => { c with dtype := NpDtype.int32 })
    ∧ (∀ c ∈ integerTypeCoerce df, specInt32Representable c = true)
    ∧ (∀ c ∈ df, c.dtype = NpDtype.int64 → c ∉ integerTypeCoerce df) := by
  refine ⟨?_, ?_, ?_⟩
  · apply List.map_congr_left
    intro c hc
    rw [select_dtypes] at hc
    simp only [List.mem_filter] at hc
    obtain ⟨hcm, hcd⟩ := hc
    exact (astypeInt32_of_small c (h c hcm) hcd).1
  · intro c hc
    rw [integerTypeCoerce, List.mem_map] at hc
    obtain ⟨c0, hc0, rfl⟩ := hc
    rw [select_dtypes] at hc0
    simp only [List.mem_filter] at hc0
    obtain ⟨hcm, hcd⟩ := hc0
    have hsp := (astypeInt32_of_small c0 (h c0 hcm) hcd).2
    rw [(astypeInt32_of_small c0 (h c0 hcm) hcd).1]
    simpa [specInt32Representable] using hsp
  · intro c _ hdty hmem
    rw [integerTypeCoerce, List.mem_map] at hmem
    obtain ⟨c0, hc0, hcast⟩ := hmem
    rw [select_dtypes] at hc0
    have : c.dtype = NpDtype.int32 := by
      rw [← hcast]; rfl
    rw [hdty] at this
    exact absurd this (by decide)

/-- Claim C1 witness: the amended integer-32 policy applied to a concrete
well-typed frame with a short column and an int64 column. -/
theorem C1_integer32_dtype_policy_witness :
    (∀ c ∈ ([⟨"a", NpDtype.short, [Val.int 5]⟩,
             ⟨"b", NpDtype.int64, [Val.int 5]⟩] : DataFrame), c.wellTyped = true)
    ∧ (integerTypeCoerce [⟨"a", NpDtype.short, [Val.int 5]⟩, ⟨"b", NpDtype.int64, [Val.int 5]⟩]
          = (([⟨"a", NpDtype.short, [Val.int 5]⟩,
               ⟨"b", NpDtype.int64, [Val.int 5]⟩] : DataFrame).filter
              (fun c => intSelectDtypes.contains c.dtype)).map
              (fun c => { c with dtype := NpDtype.int32 })
        ∧ (∀ c ∈ integerTypeCoerce [⟨"a", NpDtype.short, [Val.int 5]⟩,
              ⟨"b", NpDtype.int64, [Val.int 5]⟩], specInt32Representable c = true)
        ∧ (∀ c ∈ ([⟨"a", NpDtype.short, [Val.int 5]⟩,
              ⟨"b", NpDtype.int64, [Val.int 5]⟩] : DataFrame), c.dtype = NpDtype.int64 →
              c ∉ integerTypeCoerce [⟨"a", NpDtype.short, [Val.int 5]⟩,
                ⟨"b", NpDtype.int64, [Val.int 5]⟩])) :=
  ⟨by decide, C1_integer32_dtype_policy _ (by decide)⟩

/-- Claim C2: the source only applies the column-selection/casting policy
in `elif` branches of the not-a-DataFrame test, so a raw result that is
not tabular is wrapped into a single-column batch and then bypasses the
policy entirely.  Evaluated at a one-dimensional float result under an
integer-32 request: the wrapped float column is returned unfiltered and
uncast, whereas the same data arriving as a tabular result is filtered
out and raises UnsupportedResultError — contradicting the claim (and the
source's own docstring) that the policy applies to wrapped results
exactly as to tabular ones. -/
theorem C2_wrap_skips_policy :
    coerceResult (SparkResultType.scalar ElemType.integerType)
        (RawResult.vector NpDtype.float64 [Val.float 1, Val.float 2])
      = Except.ok (UdfOutput.column [Val.float 1, Val.float 2])
    ∧ coerceResult (SparkResultType.scalar ElemType.integerType)
        (RawResult.table [⟨"0", NpDtype.float64, [Val.float 1, Val.float 2]⟩])
      = Except.error (PredictError.unsupportedResult ElemType.integerType) := by
  exact ⟨by decide, by decide⟩

/-- Claim C3: `_get_code_dirs` tests `os.path.isdir(x)` on the bare entry
name `x`, which the OS resolves against the process's current working
directory rather than under the code directory.  With a code directory
listing `a`, `b`, `__pycache__` and a working directory containing no
directories named `a` or `b`, the injected prefix is only the code
directory itself — not the claimed code directory followed by `a` and `b`
(which only appears when same-named directories happen to exist in the
working directory). -/
theorem C3_isdir_cwd_bug :
    (load_pyfunc
        ⟨fun p => if p = "/model/code" then ["a", "b", "__pycache__"] else [],
         fun _ => false⟩
        ["/lib"] "/model" ⟨"mod", none, some "code", none, none⟩).sysPath
      = ["/model/code", "/lib"]
    ∧ (load_pyfunc
        ⟨fun p => if p = "/model/code" then ["a", "b", "__pycache__"] else [],
         fun _ => false⟩
        ["/lib"] "/model" ⟨"mod", none, some "code", none, none⟩).sysPath
      ≠ ["/model/code", "/model/code/a", "/model/code/b", "/lib"]
    ∧ (load_pyfunc
        ⟨fun p => if p = "/model/code" then ["a", "b", "__pycache__"] else [],
         fun x => x = "a" || x = "b"⟩
        ["/lib"] "/model" ⟨"mod", none, some "code", none, none⟩).sysPath
      = ["/model/code", "/model/code/a", "/model/code/b", "/lib"] := by
  exact ⟨by decide, by decide, by decide⟩

/-- Claim C4: the version compatibility check is a total function of the
producer and consumer version strings returning only warnings: an absent
producer version yields exactly one unknown-compatibility warning; equal
major.minor components yield no warning; differing major.minor components
yield exactly one mismatch warning naming both versions. -/
theorem C4_version_check (pv v : String) :
    _warn_potentially_incompatible_py_version_if_necessary none pv
        = [PyWarning.unknownVersion pv]
    ∧ (get_major_minor_py_version v = get_major_minor_py_version pv →
        _warn_potentially_incompatible_py_version_if_necessary (some v) pv = [])
    ∧ (get_major_minor_py_version v ≠ get_major_minor_py_version pv →
        _warn_potentially_incompatible_py_version_if_necessary (some v) pv
          = [PyWarning.versionMismatch v pv]) := by
  refine ⟨rfl, ?_, ?_⟩ <;> intro h <;>
    simp [_warn_potentially_incompatible_py_version_if_necessary, h]

/-- Claim C4 witness: producer 3.7.2 against consumer 3.7.9 logs nothing
(patch-only difference), producer 3.6.0 against consumer 3.7.0 logs
exactly one mismatch warning naming both, and an absent producer version
logs exactly one unknown warning. -/
theorem C4_version_check_witness :
    _warn_potentially_incompatible_py_version_if_necessary (some "3.7.2") "3.7.9" = []
    ∧ _warn_potentially_incompatible_py_version_if_necessary (some "3.6.0") "3.7.0"
        = [PyWarning.versionMismatch "3.6.0" "3.7.0"]
    ∧ _warn_potentially_incompatible_py_version_if_necessary none "3.7.0"
        = [PyWarning.unknownVersion "3.7.0"] :=
  ⟨(C4_version_check "3.7.9" "3.7.2").2.1 (by decide),
   (C4_version_check "3.7.0" "3.6.0").2.2 (by decide),
   (C4_version_check "3.7.0" "3.6.0").1⟩

/-- appending entries to the filesystem preserves the existence of a
path. -/
theorem pathExists_append (fs l : FsState) (p : String)
    (h : pathExists fs p = true) : pathExists (fs ++ l) p = true := by
  induction fs with
  | nil => simp [pathExists, List.lookup] at h
  | cons e fs ih =>
      obtain ⟨k, v⟩ := e
      cases hpk : (p == k) <;>
        simp only [pathExists, List.cons_append, List.lookup, hpk] at h ⊢
      · exact ih h
      · simp

/-- `os.makedirs(p)` makes `p` exist. -/
theorem pathExists_makedirs (fs : FsState) (p : String) :
    pathExists (makedirs fs p) p = true := by
  induction fs with
  | nil => simp [makedirs, pathExists, List.lookup]
  | cons e fs ih =>
      obtain ⟨k, v⟩ := e
      cases hpk : (p == k) <;>
        simp only [makedirs, pathExists, List.cons_append, List.lookup, hpk] at ih ⊢
      · exact ih
      · simp

/-- the code-copy loop only adds entries, so it preserves existence. -/
theorem pathExists_foldl_copy (l : List String) (s : FsState) (dst dst_dir p : String)
    (h : pathExists s p = true) :
    pathExists (l.foldl (fun s q => (_copy_file_or_tree s q dst dst_dir).1) s) p = true := by
  induction l generalizing s with
  | nil => exact h
  | cons a l ih =>
      simp only [List.foldl_cons]
      exact ih _ (pathExists_append s _ p h)

/-- a successful export leaves the destination path existing. -/
theorem save_model_creates (fs : FsState) (dst loader : String) (data : Option String)
    (code : List String) (env : Option String) (m : MLmodel) (pyv : String)
    (hex : pathExists fs dst = false) :
    pathExists (save_model fs dst loader data code env m pyv).1 dst = true := by
  rw [save_model, if_neg (by rw [hex]; exact Bool.false_ne_true)]
  dsimp only
  apply pathExists_append
  split
  · dsimp only
    apply pathExists_append
    apply pathExists_foldl_copy
    split
    · dsimp only
      apply pathExists_append
      exact pathExists_makedirs fs dst
    · exact pathExists_makedirs fs dst
  · dsimp only
    apply pathExists_foldl_copy
    split
    · dsimp only
      apply pathExists_append
      exact pathExists_makedirs fs dst
    · exact pathExists_makedirs fs dst

/-- Claim C5: when the destination already exists, `save_model` raises
DestinationExists before creating or modifying anything (the filesystem
state at raise time is exactly the input state); consequently a second
export to the destination of a successful export fails with the same
error and leaves the first export's contents unmodified. -/
theorem C5_create_only_export (fs : FsState) (dst loader loader2 : String)
    (data data2 : Option String) (code code2 : List String) (env env2 : Option String)
    (m m2 : MLmodel) (pyv pyv2 : String) :
    (pathExists fs dst = true →
      save_model fs dst loader data code env m pyv
        = (fs, Except.error (SaveError.destinationExists dst)))
    ∧ (∀ fs2 mOut, save_model fs dst loader data code env m pyv = (fs2, Except.ok mOut) →
        save_model fs2 dst loader2 data2 code2 env2 m2 pyv2
          = (fs2, Except.error (SaveError.destinationExists dst))) := by
  constructor
  · intro h
    rw [save_model, if_pos h]
  · intro fs2 mOut hok
    by_cases hex : pathExists fs dst = true
    · rw [save_model, if_pos hex] at hok
      simp at hok
    · have hex' : pathExists fs dst = false := by
        cases hfs : pathExists fs dst
        · rfl
        · exact absurd hfs hex
      have hcreated := save_model_creates fs dst loader data code env m pyv hex'
      have hfs2 : fs2 = (save_model fs dst loader data code env m pyv).1 := by
        rw [hok]
      subst hfs2
      rw [save_model, if_pos hcreated]

/-- Claim C5 witness: exporting to an existing path fails immediately with
the state untouched, and re-exporting to the destination of a successful
export fails with the successful export's state untouched. -/
theorem C5_create_only_export_witness :
    save_model [("/out", FsEntry.dirEntry)] "/out" "m" none [] none ⟨[]⟩ "3.7.0"
        = ([("/out", FsEntry.dirEntry)], Except.error (SaveError.destinationExists "/out"))
    ∧ save_model
        [("/out", FsEntry.dirEntry),
         ("/out/MLmodel", FsEntry.modelDoc ⟨[(FLAVOR_NAME,
            { loader_module := "m", python_version := some "3.7.0" })]⟩)]
        "/out" "m" none [] none ⟨[]⟩ "3.7.0"
        = ([("/out", FsEntry.dirEntry),
            ("/out/MLmodel", FsEntry.modelDoc ⟨[(FLAVOR_NAME,
               { loader_module := "m", python_version := some "3.7.0" })]⟩)],
           Except.error (SaveError.destinationExists "/out")) :=
  ⟨(C5_create_only_export [("/out", FsEntry.dirEntry)] "/out" "m" "m" none none [] []
      none none ⟨[]⟩ ⟨[]⟩ "3.7.0" "3.7.0").1 (by decide),
   (C5_create_only_export [] "/out" "m" "m" none none [] [] none none ⟨[]⟩ ⟨[]⟩
      "3.7.0" "3.7.0").2
     [("/out", FsEntry.dirEntry),
      ("/out/MLmodel", FsEntry.modelDoc ⟨[(FLAVOR_NAME,
         { loader_module := "m", python_version := some "3.7.0" })]⟩)]
     ⟨[(FLAVOR_NAME, { loader_module := "m", python_version := some "3.7.0" })]⟩
     (by decide)⟩

/-- Claim C6: with at least one column surviving the filter, a
scalar-shaped request returns exactly the leftmost surviving column —
which is the first column of the original tabular result that the
requested kind's filter keeps, cast accordingly — and an array-shaped
request returns, for each row index, the surviving row's values in
original column order. -/
theorem C6_shape_policy (t : ElemType) (raw : RawResult)
    (h : filteredResult t raw ≠ []) :
    (coerceResult (SparkResultType.scalar t) raw
        = Except.ok (UdfOutput.column
            ((if t = ElemType.stringType
                then (filteredResult t raw).map Column.stringify
                else filteredResult t raw).headD default).values))
    ∧ (coerceResult (SparkResultType.array t) raw
        = Except.ok (UdfOutput.rows
            ((List.range (nRows (if t = ElemType.stringType
                  then (filteredResult t raw).map Column.stringify
                  else filteredResult t raw))).map
              (fun i => (if t = ElemType.stringType
                  then (filteredResult t raw).map Column.stringify
                  else filteredResult t raw).map
                (fun c => c.values.getD i (Val.str ""))))))
    ∧ (∀ d, raw = RawResult.table d →
        (filteredResult t raw).head? = (d.find? (keepsColumn t)).map (castColumn t)) := by
  have hlen : ¬ (filteredResult t raw).length = 0 := by
    simpa [List.length_eq_zero] using h
  refine ⟨?_, ?_, ?_⟩
  · simp only [coerceResult, SparkResultType.elemType]
    rw [if_neg hlen]
  · simp only [coerceResult, SparkResultType.elemType]
    rw [if_neg hlen]
    simp only [dfRows]
  · intro d hd
    subst hd
    cases t
    · show ((select_dtypes intSelectDtypes d).map Column.astypeInt32).head?
        = (d.find? (fun c => intSelectDtypes.contains c.dtype)).map (fun c => c.astypeInt32)
      rw [List.head?_map, select_dtypes, head_filter_eq_find]
    · show (select_dtypes longSelectDtypes d).head?
        = (d.find? (fun c => longSelectDtypes.contains c.dtype)).map (fun c => c)
      rw [select_dtypes, head_filter_eq_find, Option.map_id']
    · show ((d.filter (fun c => c.dtype.isNumber)).map (Column.astypeFloat NpDtype.float32)).head?
        = (d.find? (fun c => c.dtype.isNumber)).map (fun c => c.astypeFloat NpDtype.float32)
      rw [List.head?_map, head_filter_eq_find]
    · show ((d.filter (fun c => c.dtype.isNumber)).map (Column.astypeFloat NpDtype.float64)).head?
        = (d.find? (fun c => c.dtype.isNumber)).map (fun c => c.astypeFloat NpDtype.float64)
      rw [List.head?_map, head_filter_eq_find]
    · show d.head? = (d.find? (fun _ => true)).map (fun c => c)
      rw [find_true_eq_head, Option.map_id']

/-- Claim C6 witness: a double request over a string column followed by an
int64 column returns the int64 column (the only survivor) cast to
float64. -/
theorem C6_shape_policy_witness :
    coerceResult (SparkResultType.scalar ElemType.doubleType)
        (RawResult.table [⟨"a", NpDtype.object, [Val.str "x"]⟩,
                          ⟨"b", NpDtype.int64, [Val.int 3]⟩])
      = Except.ok (UdfOutput.column [Val.float 3]) := by
  rw [(C6_shape_policy ElemType.doubleType
        (RawResult.table [⟨"a", NpDtype.object, [Val.str "x"]⟩,
                          ⟨"b", NpDtype.int64, [Val.int 3]⟩]) (by decide)).1]
  decide

/-- Claim C7 counterexample: the claim says a string request can never
raise UnsupportedResultError for any tabular prediction result, but a
zero-column tabular result fails the `len(result.columns) == 0` check
even under a string request, and the error is raised. -/
theorem C7_counterexample :
    coerceResult (SparkResultType.scalar ElemType.stringType) (RawResult.table [])
      = Except.error (PredictError.unsupportedResult ElemType.stringType) := by
  decide

/-- Claim C7 (amended): for tabular prediction results, the call fails
with UnsupportedResultError exactly when zero columns remain after the
type filtering, which for the requested kind happens exactly when no
column of the result is kept by its filter; a string (or array-of-string)
request never raises it provided the tabular result has at least one
column. -/
theorem C7_unsupported_iff_empty (rt : SparkResultType) (d : DataFrame) :
    (coerceResult rt (RawResult.table d)
        = Except.error (PredictError.unsupportedResult rt.elemType)
      ↔ filteredResult rt.elemType (RawResult.table d) = [])
    ∧ (filteredResult rt.elemType (RawResult.table d) = []
        ↔ ∀ c ∈ d, keepsColumn rt.elemType c = false)
    ∧ (rt.elemType = ElemType.stringType → d ≠ [] →
        coerceResult rt (RawResult.table d)
          ≠ Except.error (PredictError.unsupportedResult rt.elemType)) := by
  refine ⟨?_, ?_, ?_⟩
  · by_cases hF : filteredResult rt.elemType (RawResult.table d) = []
    · cases rt with
      | scalar t => simp [coerceResult, SparkResultType.elemType, hF]
      | array t => simp [coerceResult, SparkResultType.elemType, hF]
    · have hlen : ¬ (filteredResult rt.elemType (RawResult.table d)).length = 0 := by
        simpa [List.length_eq_zero] using hF
      cases rt with
      | scalar t =>
          simp only [SparkResultType.elemType] at hF hlen ⊢
          simp [coerceResult, SparkResultType.elemType, hF, hlen]
      | array t =>
          simp only [SparkResultType.elemType] at hF hlen ⊢
          simp [coerceResult, SparkResultType.elemType, hF, hlen]
  · cases ht : rt.elemType <;>
      simp [filteredResult, integerTypeCoerce, longTypeCoerce, floatTypeCoerce,
        doubleTypeCoerce, select_dtypes, keepsColumn, List.map_eq_nil_iff,
        List.filter_eq_nil_iff, List.eq_nil_iff_forall_not_mem]
    · constructor
      · intro hL c hc hm
        exact hL c.astypeInt32 c hc hm rfl
      · intro hR a x hx hm
        exact absurd hm (hR x hx)
    · constructor
      · intro hL c hc
        cases hn : c.dtype.isNumber
        · rfl
        · exact absurd rfl (hL (c.astypeFloat NpDtype.float32) c hc hn)
      · intro hR a x hx hn
        rw [hR x hx] at hn
        exact absurd hn (by decide)
    · constructor
      · intro hL c hc
        cases hn : c.dtype.isNumber
        · rfl
        · exact absurd rfl (hL (c.astypeFloat NpDtype.float64) c hc hn)
      · intro hR a x hx hn
        rw [hR x hx] at hn
        exact absurd hn (by decide)
  · intro ht hd
    have hne : filteredResult rt.elemType (RawResult.table d) ≠ [] := by
      rw [ht]
      simpa [filteredResult] using hd
    have hlen : ¬ (filteredResult rt.elemType (RawResult.table d)).length = 0 := by
      simpa [List.length_eq_zero] using hne
    cases rt with
    | scalar t =>
        simp only [SparkResultType.elemType] at hlen ⊢
        simp [coerceResult, SparkResultType.elemType, hlen]
    | array t =>
        simp only [SparkResultType.elemType] at hlen ⊢
        simp [coerceResult, SparkResultType.elemType, hlen]

/-- Claim C7 witness: an array-of-string request over a one-column tabular
result does not raise UnsupportedResultError. -/
theorem C7_unsupported_iff_empty_witness :
    coerceResult (SparkResultType.array ElemType.stringType)
        (RawResult.table [⟨"a", NpDtype.int64, [Val.int 1]⟩])
      ≠ Except.error (PredictError.unsupportedResult
          (SparkResultType.array ElemType.stringType).elemType) :=
  (C7_unsupported_iff_empty (SparkResultType.array ElemType.stringType)
      [⟨"a", NpDtype.int64, [Val.int 1]⟩]).2.2 rfl (by decide)

/-- Claim C8: the input batch assembled from the UDF's positional
arguments has its columns keyed by the ordinal strings "0","1",... in
call order; with 11 arguments the column order is 0,...,10, which is not
the lexicographic string order 0,1,10,2,.... -/
theorem C8_ordinal_columns (args : List PdSeries) :
    (assembleInput args).map Column.name = inputColumns args.length
    ∧ inputColumns 11 = ["0", "1", "2", "3", "4", "5", "6", "7", "8", "9", "10"]
    ∧ inputColumns 11 ≠ ["0", "1", "10", "2", "3", "4", "5", "6", "7", "8", "9"] := by
  refine ⟨?_, by decide, by decide⟩
  rw [assembleInput, inputColumns, List.map_map]
  rw [← List.enum_map_fst args, List.map_map]
  rfl

/-- Claim C9: the generated standalone loader embeds a search-path prefix
consisting of the code directory rooted at the deployment path followed
by the entries obtained by listing the original artifact's code directory
(filtered exactly as the dynamic loader filters them) but joined under
the deployment-path code directory; it embeds the data path rooted at the
deployment path (the deployment path itself when `data` is absent); and
it invokes the configuration's loader module through the same
`_load_pyfunc` entry point the dynamic loader uses. -/
theorem C9_generated_loader (fs : Fs) (model : MLmodel) (conf : FlavorConf)
    (src_path dst_path : String) (sp : List String)
    (hconf : model.flavors.lookup FLAVOR_NAME = some conf)
    (hcode : truthy conf.code = true) :
    get_module_loader_src fs model src_path dst_path
      = Except.ok (loader_template
          ("sys.path = ["
            ++ String.intercalate ","
                ((joinPath dst_path (conf.code.getD "")
                  :: ((fs.listdir (joinPath src_path (conf.code.getD ""))).filter
                        (fun x => fs.isdir x && x ≠ "__pycache__")).map
                      (fun x => joinPath (joinPath dst_path (conf.code.getD "")) x)).map
                  abspathSrc)
            ++ "] + sys.path; ")
          conf.loader_module
          (match conf.data with
           | some d => joinPath dst_path d
           | none => dst_path))
    ∧ (load_pyfunc fs sp dst_path conf).loader_module = conf.loader_module
    ∧ (load_pyfunc fs sp dst_path conf).entryPoint = pyfuncEntryPoint := by
  refine ⟨?_, rfl, rfl⟩
  simp only [get_module_loader_src, hconf]
  rw [if_pos hcode]
  have hne := truthy_some_of_ne (joinPath dst_path (conf.code.getD ""))
      (joinPath_ne_empty dst_path (conf.code.getD ""))
  simp only [_get_code_dirs, hne, if_true, Option.getD_some]
  rfl

/-- Claim C9 witness: the generator evaluated on a concrete artifact whose
code directory lists `a`, `b` and `__pycache__`, with both `a` and `b`
visible as directories, and a `data` entry. -/
theorem C9_generated_loader_witness :
    get_module_loader_src
        ⟨fun p => if p = "/src/code" then ["a", "b", "__pycache__"] else [],
         fun x => x = "a" || x = "b"⟩
        ⟨[(FLAVOR_NAME, ⟨"mod", none, some "code", some "data/model.pkl", none⟩)]⟩
        "/src" "/dst"
      = Except.ok "\n\nimport importlib\nimport os\nimport sys\n\ndef load_pyfunc():\n    sys.path = [os.path.abspath(\x27/dst/code\x27),os.path.abspath(\x27/dst/code/a\x27),os.path.abspath(\x27/dst/code/b\x27)] + sys.path; return importlib.import_module(\x27mod\x27)._load_pyfunc(\x27/dst/data/model.pkl\x27)\n\n" := by
  rw [(C9_generated_loader
        ⟨fun p => if p = "/src/code" then ["a", "b", "__pycache__"] else [],
         fun x => x = "a" || x = "b"⟩
        ⟨[(FLAVOR_NAME, ⟨"mod", none, some "code", some "data/model.pkl", none⟩)]⟩
        ⟨"mod", none, some "code", some "data/model.pkl", none⟩
        "/src" "/dst" [] rfl (by decide)).1]
  decide

/-- Claim C10: a falsy (absent or empty-string) path value behaves like an
absent one: `add_to_model` omits the data/code/env keys for any falsy
argument, a stored configuration whose `code` value is falsy leaves the
dynamic loader's search path completely unchanged, and for such a
configuration the code generator emits a stub containing an empty
search-path update, exactly as if `code` were absent. -/
theorem C10_falsy_paths (model : MLmodel) (lm pyv : String)
    (data code env : Option String) (fs : Fs) (sp : List String) (path : String)
    (conf : FlavorConf) (m2 : MLmodel) (src dst : String)
    (hdata : truthy data = false) (hcode : truthy code = false)
    (henv : truthy env = false) (hconf : truthy conf.code = false)
    (hm : m2.flavors.lookup FLAVOR_NAME = some conf) :
    (add_to_model model lm pyv data code env).flavors.getLast?
        = some (FLAVOR_NAME,
            { loader_module := lm, python_version := some pyv,
              code := none, data := none, env := none })
    ∧ (load_pyfunc fs sp path conf).sysPath = sp
    ∧ get_module_loader_src fs m2 src dst
        = Except.ok (loader_template "" conf.loader_module
            (match conf.data with
             | some d => joinPath dst d
             | none => dst)) := by
  refine ⟨?_, ?_, ?_⟩
  · rw [add_to_model]
    simp only [List.getLast?_concat]
    simp [hdata, hcode, henv]
  · simp [load_pyfunc, hconf]
  · simp only [get_module_loader_src, hm]
    rw [if_neg (by simp [hconf])]

/-- Claim C10 witness: empty-string data/code/env arguments are omitted
from the flavor entry, an empty `code` value leaves the search path
unchanged, and the generated stub for such a configuration carries no
search-path update. -/
theorem C10_falsy_paths_witness :
    (add_to_model ⟨[]⟩ "m" "3.7.0" (some "") (some "") (some "")).flavors.getLast?
        = some (FLAVOR_NAME,
            { loader_module := "m", python_version := some "3.7.0",
              code := none, data := none, env := none })
    ∧ (load_pyfunc ⟨fun _ => [], fun _ => false⟩ ["/lib"] "/model"
          ⟨"m", none, some "", none, none⟩).sysPath = ["/lib"]
    ∧ get_module_loader_src ⟨fun _ => [], fun _ => false⟩
          ⟨[(FLAVOR_NAME, ⟨"m", none, some "", none, none⟩)]⟩ "/src" "/dst"
        = Except.ok (loader_template "" "m" "/dst") :=
  C10_falsy_paths ⟨[]⟩ "m" "3.7.0" (some "") (some "") (some "")
    ⟨fun _ => [], fun _ => false⟩ ["/lib"] "/model"
    ⟨"m", none, some "", none, none⟩ ⟨[(FLAVOR_NAME, ⟨"m", none, some "", none, none⟩)]⟩
    "/src" "/dst" (by decide) (by decide) (by decide) (by decide) (by decide)
